import Mathlib

/-!
Verification development for the rule-based ETF signal-scoring and
single-asset-rotation backtesting engine in `app.py`.

The embedding translates the core classes (`ETFData.calculate_features`
RSI pipeline, `SmartModel.predict`, `SmartModel.should_hold_cash`,
`BacktestEngine.run_backtest`, `BacktestEngine.calculate_metrics`,
`BacktestEngine.get_chart_data`, `Strategy.get_recommendation`, the
`/api/backtest` route) into pure Lean functions.  External collaborators
(the akshare market-data fetch, Flask plumbing, HTML rendering) are out
of scope: price/feature frames arrive as explicit arguments, exactly as
the spec treats them.  Python floats are modelled as rationals; the few
places where IEEE special values matter (the RSI division) use an
explicit `PVal` float model with `inf`/`nan`.  Dates are modelled as
naturals (one per trading day, ordered like the `YYYY-MM-DD` strings the
code sorts and compares).
-/

namespace PickETF

/-- Python `round(q, d)` modelled on rationals: round to `d` decimal
places.  Python uses round-half-even on binary floats; the rounding mode
only differs on exact ties, which none of the proved properties depend
on, so Mathlib's `round` (half-up) is used. -/
def roundTo (d : ℕ) (q : ℚ) : ℚ := ((round (q * 10 ^ d) : ℤ) : ℚ) / 10 ^ d

/-- Two decimal places, as in `round(x, 2)` at app.py:362. -/
def round2 (q : ℚ) : ℚ := roundTo 2 q

/-- Three decimal places, as in `round(price, 3)` at app.py:532. -/
def round3 (q : ℚ) : ℚ := roundTo 3 q

/-- Six decimal places, as in `round(latest['macd'], 6)` at app.py:314. -/
def round6 (q : ℚ) : ℚ := roundTo 6 q

/-- A rational that is expressible with exactly two decimal places. -/
def IsTwoDec (q : ℚ) : Prop := ∃ n : ℤ, q = (n : ℚ) / 100

/-!
## IEEE float model for the RSI computation

`calculate_features` (app.py:145-150) computes
`rs = gain / loss; rsi14 = 100 - (100 / (1 + rs))` with no explicit
guard: when the rolling average loss is zero the result is produced by
IEEE-754 semantics (`x/0 = inf` for `x > 0`, `0/0 = nan`).  `PVal`
models the float values that can arise there; signed zeros never occur
in this pipeline so they are not modelled.
-/

inductive PVal where
  | num (q : ℚ)
  | inf
  | ninf
  | nan
deriving DecidableEq

/-- IEEE addition on the modelled values. -/
def PVal.add : PVal → PVal → PVal
  | .nan, _ => .nan
  | _, .nan => .nan
  | .inf, .ninf => .nan
  | .ninf, .inf => .nan
  | .inf, _ => .inf
  | _, .inf => .inf
  | .ninf, _ => .ninf
  | _, .ninf => .ninf
  | .num a, .num b => .num (a + b)

/-- IEEE subtraction on the modelled values. -/
def PVal.sub : PVal → PVal → PVal
  | .nan, _ => .nan
  | _, .nan => .nan
  | .inf, .inf => .nan
  | .ninf, .ninf => .nan
  | .inf, _ => .inf
  | .ninf, _ => .ninf
  | _, .inf => .ninf
  | _, .ninf => .inf
  | .num a, .num b => .num (a - b)

/-- IEEE division on the modelled values (positive zero only). -/
def PVal.div : PVal → PVal → PVal
  | .nan, _ => .nan
  | _, .nan => .nan
  | .inf, .inf => .nan
  | .inf, .ninf => .nan
  | .ninf, .inf => .nan
  | .ninf, .ninf => .nan
  | .inf, .num b => if b < 0 then .ninf else .inf
  | .ninf, .num b => if b < 0 then .inf else .ninf
  | .num _, .inf => .num 0
  | .num _, .ninf => .num 0
  | .num a, .num b =>
      if b = 0 then
        if a = 0 then .nan else if 0 < a then .inf else .ninf
      else .num (a / b)

/-- A pandas cell: a missing (NaN) rolling value becomes `nan`. -/
def toPVal : Option ℚ → PVal
  | some q => .num q
  | none => .nan

/-!
## RSI(14) pipeline (app.py:145-150)

`delta = df['收盘'].diff()` — first entry NaN;
`gain = delta.where(delta > 0, 0).rolling(14).mean()` — `where` maps the
leading NaN to 0 because a NaN comparison is False;
`loss = (-delta.where(delta < 0, 0)).rolling(14).mean()`;
`rs = gain / loss; rsi14 = 100 - (100 / (1 + rs))`.
-/

/-- Embeds `df['收盘'].diff()`: first difference, NaN (here `none`) at index 0. -/
def diffs (closes : List ℚ) : List (Option ℚ) :=
  match closes with
  | [] => []
  | c :: rest => none :: List.zipWith (fun a b => some (b - a)) (c :: rest) rest

/-- Embeds `delta.where(delta > 0, 0)`: keep positive changes, else 0 (NaN
comparison is False, so the leading NaN also becomes 0). -/
def gains (closes : List ℚ) : List ℚ :=
  (diffs closes).map fun d =>
    match d with
    | some x => if 0 < x then x else 0
    | none => 0

/-- Embeds the series `-delta.where(delta < 0, 0)`: magnitude of negative changes, else 0. -/
def losses (closes : List ℚ) : List ℚ :=
  (diffs closes).map fun d =>
    match d with
    | some x => if x < 0 then -x else 0
    | none => 0

/-- Embeds `series.rolling(w).mean()`: trailing mean over `w` entries, `none`
until the window is filled. -/
def rollingMean (w : ℕ) (xs : List ℚ) : List (Option ℚ) :=
  (List.range xs.length).map fun i =>
    if w ≤ i + 1 then some (((xs.take (i + 1)).drop (i + 1 - w)).sum / w) else none

/-- Embeds `rsi14 = 100 - (100 / (1 + gain/loss))`, elementwise under the IEEE
float model; NaN rolling cells propagate. -/
def rsi14 (closes : List ℚ) : List PVal :=
  List.zipWith
    (fun g l =>
      PVal.sub (.num 100) (PVal.div (.num 100) (PVal.add (.num 1) (PVal.div (toPVal g) (toPVal l)))))
    (rollingMean 14 (gains closes)) (rollingMean 14 (losses closes))

/-!
## Strategy configuration (`SmartModel.__init__`, app.py:172-229)

The source dispatches on the strategy-name string with an if/elif chain
over the four configured names; the finite set is modelled as an
inductive tag (`'momentum'`, `'value'`, `'balanced'`, `'growth'`).
-/

inductive StratType where
  | momentum
  | value
  | balanced
  | growth
deriving DecidableEq

structure StratConfig where
  weights : List (String × ℚ)
  cash_threshold : ℚ
  market_bear_threshold : ℚ
  max_volatility : ℚ

/-- The weight/threshold tables set in `SmartModel.__init__`. -/
def config : StratType → StratConfig
  | .momentum =>
      ⟨[("return_5", 25/100), ("return_10", 20/100), ("return_20", 25/100),
        ("ma20_bias", 20/100), ("volatility", -(10/100))], 45, -(5/100), 3/100⟩
  | .value =>
      ⟨[("return_5", 5/100), ("return_10", 10/100), ("return_20", 15/100),
        ("ma20_bias", 60/100), ("volatility", -(10/100))], 55, -(6/100), 2/100⟩
  | .balanced =>
      ⟨[("trend_score", 30/100), ("rsi_score", 20/100), ("macd_score", 25/100),
        ("bb_score", 15/100), ("volatility", -(10/100))], 42, -(5/100), 35/1000⟩
  | .growth =>
      ⟨[("return_5", 30/100), ("return_10", 25/100), ("return_20", 20/100),
        ("ma20_bias", 15/100), ("volatility", -(5/100))], 40, -(3/100), 35/1000⟩

/-!
## Feature frames

A row of a frame produced by `calculate_features`: date, raw open/close,
and the derived columns that `predict` reads.  A pandas NaN cell is
`none`.  Derived columns that no code path reads after creation
(`ma5`/`ma20`/`ma60` are read, `returns`, `bb_std`, `bb_middle`,
`bb_upper`, `bb_lower`, `macd_hist`, `trend_signal` are not read by
`predict` or the backtest loop) are omitted from the model where unread.
-/

structure FRow where
  date : ℕ
  openPrice : ℚ
  closePrice : ℚ
  return_5 : Option ℚ := none
  return_10 : Option ℚ := none
  return_20 : Option ℚ := none
  ma5 : Option ℚ := none
  ma20 : Option ℚ := none
  ma60 : Option ℚ := none
  ma20_bias : Option ℚ := none
  volatility : Option ℚ := none
  rsi14 : Option ℚ := none
  macd : Option ℚ := none
  macd_signal : Option ℚ := none
  bb_position : Option ℚ := none
deriving DecidableEq

/-- Column lookup used by the generic weighted branch (`latest[feature]`
with the `feature in latest and pd.notna(...)` guard): `none` when the
column does not exist among the weight-table names or holds NaN. -/
def FRow.feat (r : FRow) : String → Option ℚ
  | "return_5" => r.return_5
  | "return_10" => r.return_10
  | "return_20" => r.return_20
  | "ma20_bias" => r.ma20_bias
  | "volatility" => r.volatility
  | _ => none

/-- Python `a < b` on possibly-NaN floats: False unless both present. -/
def oLt (a b : Option ℚ) : Bool :=
  match a, b with
  | some x, some y => decide (x < y)
  | _, _ => false

/-- Python `a > b` on possibly-NaN floats: False unless both present. -/
def oGt (a b : Option ℚ) : Bool :=
  match a, b with
  | some x, some y => decide (y < x)
  | _, _ => false

/-- Embeds `market_df['收盘'].pct_change(5).iloc[-1]`: trailing 5-day return of
the benchmark close column, evaluated only under a `len > 5` guard. -/
def marketRet5 (closes : List ℚ) : ℚ :=
  closes.getD (closes.length - 1) 0 / closes.getD (closes.length - 6) 0 - 1

/-!
## `SmartModel.predict` (app.py:231-375)

`predictRaw` is the if/elif scoring chain (app.py:240-359), producing
the pre-clip score and the signal map accumulated so far; `predict`
applies the final clip/round (app.py:362) and the market-bear signals
(app.py:364-373).  The `'ma20_bias' in latest` column-existence test is
True for every frame produced by `calculate_features`, which is the only
kind of frame the callers pass, so the value branch is guarded by the
strategy tag alone.
-/

def predictRaw (strat : StratType) (df : List FRow) (latest : FRow) :
    ℚ × List (String × Option ℚ) :=
  let cfg := config strat
  if strat = .value then
    -- hard 20-day moving-average defense rule (app.py:240-256)
    let below : Bool := oLt latest.ma20_bias (some 0)
    let sig1 := [("ma20_below_line", some (if below then (1 : ℚ) else 0))]
    match latest.ma20_bias with
    | some b =>
        if b < 0 then
          let sig2 := sig1 ++ [("break_distance", some (round2 (b * 100)))]
          let s : ℚ := if 5/100 < |b| then 30 else if 2/100 < |b| then 40 else 45
          (s, sig2)
        else (50, sig1)
    | none => (50, sig1)
  else if strat = .balanced then
    -- multi-indicator fusion (app.py:258-347)
    let s0 : ℚ := 50
    let sig0 : List (String × Option ℚ) := []
    let p1 :=
      if 60 ≤ df.length then
        let t : ℚ :=
          if oGt latest.ma5 latest.ma20 && oGt latest.ma20 latest.ma60 then 85
          else if oLt latest.ma5 latest.ma20 && oLt latest.ma20 latest.ma60 then 15
          else if oGt latest.ma5 latest.ma20 then 70
          else if oLt latest.ma5 latest.ma20 then 30
          else 50
        (s0 + (t - 50) * (30/100), sig0 ++ [("trend_score", some (round2 t))])
      else (s0, sig0)
    let p2 :=
      match latest.rsi14 with
      | some rsi =>
          let t : ℚ :=
            if rsi < 30 then 80
            else if rsi < 40 then 65
            else if 70 < rsi then 20
            else if 60 < rsi then 35
            else if 50 < rsi then 60
            else 40
          (p1.1 + (t - 50) * (20/100),
           p1.2 ++ [("rsi_score", some (round2 t)), ("rsi", some (round2 rsi))])
      | none => p1
    let p3 :=
      if 1 < df.length then
        let prev := df.getD (df.length - 2) latest
        let t : ℚ :=
          if oLt prev.macd prev.macd_signal && oGt latest.macd latest.macd_signal then 80
          else if oGt prev.macd prev.macd_signal && oLt latest.macd latest.macd_signal then 20
          else if oGt latest.macd latest.macd_signal && oGt latest.macd (some 0) then 70
          else if oLt latest.macd latest.macd_signal && oLt latest.macd (some 0) then 30
          else 50
        (p2.1 + (t - 50) * (25/100),
         p2.2 ++ [("macd_score", some (round2 t)), ("macd", latest.macd.map round6)])
      else p2
    let p4 :=
      match latest.bb_position with
      | some bp =>
          let t : ℚ :=
            if bp < 20/100 then 75
            else if bp < 40/100 then 65
            else if 80/100 < bp then 25
            else if 60/100 < bp then 35
            else 50
          (p3.1 + (t - 50) * (15/100),
           p3.2 ++ [("bb_score", some (round2 t)), ("bb_position", some (round2 bp))])
      | none => p3
    match latest.volatility with
    | some v =>
        let pen : ℚ :=
          if cfg.max_volatility * (3/2) < v then -20
          else if cfg.max_volatility < v then -10
          else 0
        (p4.1 + pen, p4.2 ++ [("volatility", some (round2 (v * 100)))])
    | none => p4
  else if (50 : ℚ) = 50 then
    -- generic additive weighted sum (app.py:349-359); the guard mirrors
    -- `elif score == 50.0`, vacuously true when this branch is reached
    cfg.weights.foldl
      (fun acc fw =>
        match latest.feat fw.1 with
        | some v =>
            if fw.1 = "volatility" then
              let volScore := max 0 (1 - v / cfg.max_volatility) * 50
              (acc.1 + (volScore - 25) * |fw.2|,
               acc.2 ++ [("volatility", some (round2 (v * 100)))])
            else
              (acc.1 + v * fw.2 * 100, acc.2 ++ [(fw.1, some (round2 (v * 100)))])
        | none => acc)
      ((50 : ℚ), ([] : List (String × Option ℚ)))
  else (50, [])

/-- Market-bear detection appended after scoring (app.py:364-373). -/
def marketBearSig (strat : StratType) (market : Option (List ℚ)) :
    ℚ × List (String × Option ℚ) :=
  match market with
  | some closes =>
      if 5 < closes.length then
        let r5 := marketRet5 closes
        (if r5 < (config strat).market_bear_threshold then 1 else 0,
         [("market_return_5", some (round2 (r5 * 100)))])
      else (0, [])
  | none => (0, [])

/-- Embeds `SmartModel.predict`: returns the clipped 2-decimal score and the
signal map.  An empty frame short-circuits to `(50.0, {})`. -/
def predict (strat : StratType) (df : List FRow) (market : Option (List ℚ)) :
    ℚ × List (String × Option ℚ) :=
  match df.getLast? with
  | none => (50, [])
  | some latest =>
      let p := predictRaw strat df latest
      let score := round2 (min (max p.1 0) 100)
      let mb := marketBearSig strat market
      (score, p.2 ++ mb.2 ++ [("market_bear", some mb.1), ("raw_score", some score)])

/-!
## `SmartModel.should_hold_cash` (app.py:377-396)

The reason strings (f-strings in the source) are modelled as an
inductive carrying the values interpolated into each message;
`favorable` is the literal `"信号良好"` ("signals favorable").
-/

inductive CashReason where
  | noData
  | lowMax (maxS thr : ℚ)
  | bearMkt (r : ℚ)
  | flatMkt (avg : ℚ)
  | favorable
deriving DecidableEq

/-- Embeds `max(all_scores.values())` over a nonempty score map (`0` junk value
for the empty map, which the caller rules out first). -/
def maxScore : List (String × ℚ) → ℚ
  | [] => 0
  | x :: rest => (rest.map (·.2)).foldl max x.2

/-- Embeds `sum(all_scores.values()) / len(all_scores)`. -/
def avgScore (l : List (String × ℚ)) : ℚ := (l.map (·.2)).sum / l.length

/-- The fallthrough after the benchmark check: flat-market test then the
favorable default (app.py:393-396). -/
def shcTail (maxS avgS : ℚ) : Bool × CashReason :=
  if avgS < 40 ∧ maxS - avgS < 10 then (true, .flatMkt avgS) else (false, .favorable)

/-- Embeds `SmartModel.should_hold_cash`. -/
def should_hold_cash (strat : StratType) (scores : List (String × ℚ))
    (market : Option (List ℚ)) : Bool × CashReason :=
  match scores with
  | [] => (true, .noData)
  | _ :: _ =>
      let maxS := maxScore scores
      let avgS := avgScore scores
      if maxS < (config strat).cash_threshold then
        (true, .lowMax maxS (config strat).cash_threshold)
      else
        match market with
        | some cs =>
            if 5 < cs.length then
              if marketRet5 cs < (config strat).market_bear_threshold then
                (true, .bearMkt (marketRet5 cs))
              else shcTail maxS avgS
            else shcTail maxS avgS
        | none => shcTail maxS avgS

/-- Embeds `max(all_scores, key=all_scores.get)`: the first key attaining the
maximal value, in iteration (insertion) order. -/
def argmaxKey : List (String × ℚ) → Option String
  | [] => none
  | x :: rest => some ((rest.foldl (fun best p => if best.2 < p.2 then p else best) x).1)

/-!
## `BacktestEngine.run_backtest` (app.py:406-589)

The akshare fetch plus `calculate_features` preprocessing (app.py:410-420)
is the external data collaborator: the engine here receives the featured
per-symbol frames and the benchmark frame directly.  The date arithmetic
of the source (string dates, `timedelta`) is modelled with natural-number
trading dates.
-/

inductive TradeRec where
  | sell (date : ℕ) (symbol : String) (price shares value : ℚ)
  | buy (date : ℕ) (symbol : String) (price shares score : ℚ)
  | cashRec (date : ℕ) (reason : CashReason) (cash_value : ℚ)
deriving DecidableEq

/-- The symbol a trade record references, if any (the CASH marker record
carries no instrument). -/
def TradeRec.symbol? : TradeRec → Option String
  | .sell _ s _ _ _ => some s
  | .buy _ s _ _ _ => some s
  | .cashRec _ _ _ => none

def TradeRec.isBuy : TradeRec → Bool
  | .buy _ _ _ _ _ => true
  | _ => false

structure NavPoint where
  date : ℕ
  nav : ℚ
  holding : String
  return_pct : ℚ
deriving DecidableEq

/-- The human-readable `reason` strings of a daily decision, modelled
structurally: `topScore s` is `f"得分最高: {s:.2f}分"`, `holdCont r` is
`r + " (继续持有)"`. -/
inductive DReason where
  | empty
  | cash (c : CashReason)
  | topScore (s : ℚ)
  | holdCont (base : DReason)
deriving DecidableEq

structure Decision where
  date : ℕ
  prev_holding : String
  scores : List (String × ℚ)
  decision : String
  reason : DReason
  action : String
deriving DecidableEq

structure BTState where
  holding : Option String
  shares : ℚ
  cash : ℚ
  trade_log : List TradeRec
  nav_history : List NavPoint
  decision_history : List Decision
deriving DecidableEq

/-- Embeds `today_data`: for each symbol the first row dated `d` (app.py:450-457). -/
def todayData (all_data : List (String × List FRow)) (d : ℕ) :
    List (String × FRow) :=
  all_data.filterMap fun p => ((p.2.filter (·.date = d)).head?).map fun r => (p.1, r)

/-- Embeds `yesterday_data`: for each symbol the nonempty sub-frame dated `d`
(app.py:477-480). -/
def yesterdayData (all_data : List (String × List FRow)) (d : ℕ) :
    List (String × List FRow) :=
  all_data.filterMap fun p =>
    let f := p.2.filter (·.date = d)
    if f.isEmpty then none else some (p.1, f)

/-- Embeds `market_yest = market_df[market_df['日期'] == yesterday]` (close
column of the one-day slice); `none` when no benchmark frame exists. -/
def marketYest (mkt : Option (List (ℕ × ℚ))) (d : ℕ) : Option (List ℚ) :=
  mkt.map fun rows => (rows.filter (·.1 = d)).map (·.2)

/-- Per-symbol scores from yesterday's one-day frames (app.py:486-493). -/
def computeScores (strat : StratType) (yd : List (String × List FRow))
    (market : Option (List ℚ)) : List (String × ℚ) :=
  yd.map fun p => (p.1, (predict strat p.2 market).1)

/-- Fixed simulation constants (app.py:442-445). -/
def commissionRate : ℚ := 1/10000

def minCommission : ℚ := 5

def dailyCashReturn : ℚ := (2/100) / 252

/-- The decision-and-trade section of one loop iteration
(app.py:462-571): evaluates yesterday's signals, determines the action,
executes the simulated trades and appends the daily decision record.
`yesterday?` is `none` on the first trading day (`i == 0`). -/
def decisionPhase (strat : StratType) (all_data : List (String × List FRow))
    (mkt : Option (List (ℕ × ℚ))) (yesterday? : Option ℕ) (today : ℕ)
    (td : List (String × FRow)) (st : BTState) : BTState :=
  let dec0 : Decision :=
    { date := today, prev_holding := st.holding.getD "CASH", scores := [],
      decision := "", reason := .empty, action := "HOLD" }
  let res : BTState × Decision :=
    match yesterday? with
    | none => (st, dec0)
    | some yd =>
        let ydata := yesterdayData all_data yd
        let myest := marketYest mkt yd
        if ydata.isEmpty then (st, dec0)
        else
          let all_scores := computeScores strat ydata myest
          let decS : Decision :=
            { dec0 with scores := all_scores.map fun p => (p.1, round2 p.2) }
          let shc := should_hold_cash strat all_scores myest
          let target := if shc.1 then "CASH" else (argmaxKey all_scores).getD ""
          let targetScore := if shc.1 then 0 else (all_scores.lookup target).getD 0
          let decD :=
            if shc.1 then { decS with decision := "CASH", reason := .cash shc.2 }
            else { decS with decision := target, reason := .topScore targetScore }
          if st.holding ≠ some target then
            let decA :=
              if st.holding = none ∨ st.holding = some "CASH" then
                { decD with action := "BUY" }
              else if target = "CASH" then { decD with action := "SELL" }
              else { decD with action := "SWITCH" }
            -- sell leg (app.py:522-538)
            let sold : Option String × ℚ × ℚ × List TradeRec :=
              match st.holding with
              | some h =>
                  if h ≠ "CASH" then
                    match td.lookup h with
                    | some row =>
                        let sellValue := st.shares * row.openPrice
                        ((none : Option String), (0 : ℚ),
                         sellValue - max (sellValue * commissionRate) minCommission,
                         st.trade_log ++
                           [.sell today h (round3 row.openPrice) (round2 st.shares)
                              (round2 sellValue)])
                    | none => (st.holding, st.shares, st.cash, st.trade_log)
                  else (st.holding, st.shares, st.cash, st.trade_log)
              | none => (st.holding, st.shares, st.cash, st.trade_log)
            -- buy / go-to-cash leg (app.py:540-565)
            if target ≠ "CASH" then
              match td.lookup target with
              | some row =>
                  let c1 := sold.2.2.1
                  let actualCash := c1 - max (c1 * commissionRate) minCommission
                  let newShares := actualCash / row.openPrice
                  ({ holding := some target, shares := newShares, cash := 0,
                     trade_log := sold.2.2.2 ++
                       [.buy today target (round3 row.openPrice) (round2 newShares)
                          (round2 targetScore)],
                     nav_history := st.nav_history,
                     decision_history := st.decision_history }, decA)
              | none =>
                  ({ st with
                     holding := sold.1, shares := sold.2.1,
                     cash := sold.2.2.1, trade_log := sold.2.2.2 }, decA)
            else
              ({ st with
                 holding := some "CASH", shares := sold.2.1,
                 cash := sold.2.2.1,
                 trade_log := sold.2.2.2 ++
                   [.cashRec today shc.2 (round2 sold.2.2.1)] }, decA)
          else
            (st, { decD with action := "HOLD", reason := .holdCont decD.reason })
  { res.1 with decision_history := res.1.decision_history ++ [res.2] }

/-- The NAV section of one loop iteration (app.py:573-587): computes the
day's net asset value, compounding the cash balance by the fixed daily
money-market rate only when the holding is the explicit `'CASH'`
sentinel, and appends the NAV record. -/
def navPhase (cap0 : ℚ) (today : ℕ) (td : List (String × FRow)) (st : BTState) :
    BTState :=
  let res :=
    match st.holding with
    | some h =>
        if h = "CASH" then
          let c := st.cash * (1 + dailyCashReturn)
          ({ st with cash := c }, c)
        else
          match td.lookup h with
          | some row => (st, st.shares * row.closePrice)
          | none => (st, st.cash)
    | none => (st, st.cash)
  { res.1 with nav_history := res.1.nav_history ++
      [{ date := today, nav := round2 res.2,
         holding := res.1.holding.getD "CASH",
         return_pct := round2 ((res.2 / cap0 - 1) * 100) }] }

/-- One iteration of the day loop (app.py:447-587); a day none of the
frames cover is skipped (`continue`). -/
def dayStep (strat : StratType) (all_data : List (String × List FRow))
    (mkt : Option (List (ℕ × ℚ))) (cap0 : ℚ) (yesterday? : Option ℕ)
    (today : ℕ) (st : BTState) : BTState :=
  let td := todayData all_data today
  if td.isEmpty then st
  else navPhase cap0 today td (decisionPhase strat all_data mkt yesterday? today td st)

/-- The day loop, threading the previous trade date
(`trade_dates[i-1]`) to each iteration. -/
def runDays (strat : StratType) (all_data : List (String × List FRow))
    (mkt : Option (List (ℕ × ℚ))) (cap0 : ℚ) :
    Option ℕ → List ℕ → BTState → BTState
  | _, [], st => st
  | prev, d :: rest, st =>
      runDays strat all_data mkt cap0 (some d)
        rest (dayStep strat all_data mkt cap0 prev d st)

/-- Embeds `common_dates`: the intersection of the date sets of all admitted
frames (app.py:426-429); empty input is unreachable because the caller
first requires at least 5 frames. -/
def commonDates : List (String × List FRow) → List ℕ
  | [] => []
  | x :: rest =>
      rest.foldl (fun acc p => acc.filter fun d => d ∈ p.2.map (·.date))
        ((x.2.map (·.date)).dedup)

/-- Embeds `trade_dates = sorted(d for d in common_dates if d >= start_date)`. -/
def tradeDates (all_data : List (String × List FRow)) (start : ℕ) : List ℕ :=
  ((commonDates all_data).filter (start ≤ ·)).insertionSort (· ≤ ·)

/-- Embeds `BacktestEngine.run_backtest` up to the final metrics call: requires
at least 5 instruments with data, resets the run state and folds the day
loop over the trading calendar. -/
def run_backtest_core (strat : StratType) (all_data : List (String × List FRow))
    (mkt : Option (List (ℕ × ℚ))) (start : ℕ) (cap0 : ℚ) : Option BTState :=
  if all_data.length < 5 then none
  else
    some (runDays strat all_data mkt cap0 none (tradeDates all_data start)
      { holding := none, shares := 0, cash := cap0,
        trade_log := [], nav_history := [], decision_history := [] })

/-!
## `BacktestEngine.calculate_metrics` (app.py:591-633)

`annual_return` (fractional real power) and `sharpe_ratio` (square
roots) are irrational-valued and are read by no verified claim; they are
omitted from the result record, which otherwise mirrors the returned
dictionary.
-/

/-- Embeds the expression `((nav - nav.cummax()) / cummax).min()`: the most negative running
drawdown of a NAV series. -/
def maxDrawdown : List ℚ → ℚ
  | [] => 0
  | x :: rest =>
      (rest.foldl (fun acc v =>
        let cm := max acc.1 v
        (cm, min acc.2 ((v - cm) / cm))) (x, (x - x) / x)).2

structure Metrics where
  total_return : ℚ
  max_drawdown : ℚ
  trade_count : ℕ
  cash_ratio : ℚ
  start_date : ℕ
  end_date : ℕ
  final_nav : ℚ
  initial_capital : ℚ
  nav_history : List NavPoint
  trade_log : List TradeRec
  decision_history : List Decision
deriving DecidableEq

/-- Embeds `BacktestEngine.calculate_metrics`: `None` when fewer than 2 NAV
points exist, else the summary dictionary. -/
def calculate_metrics (cap0 : ℚ) (st : BTState) : Option Metrics :=
  if st.nav_history.length < 2 then none
  else
    let navs := st.nav_history.map (·.nav)
    let lastNav := navs.getLastD 0
    let total := (lastNav / cap0 - 1) * 100
    let cashDays := (st.nav_history.filter (·.holding = "CASH")).length
    some
      { total_return := round2 total,
        max_drawdown := round2 (maxDrawdown navs * 100),
        trade_count := (st.trade_log.filter (·.isBuy)).length,
        cash_ratio := round2 ((cashDays : ℚ) / st.nav_history.length * 100),
        start_date := (st.nav_history.head?.map (·.date)).getD 0,
        end_date := (st.nav_history.getLast?.map (·.date)).getD 0,
        final_nav := round2 lastNav,
        initial_capital := cap0,
        nav_history := st.nav_history,
        trade_log := st.trade_log,
        decision_history := st.decision_history }

/-- Embeds `run_backtest` end to end: data check, day loop, metrics. -/
def run_backtest (strat : StratType) (all_data : List (String × List FRow))
    (mkt : Option (List (ℕ × ℚ))) (start : ℕ) (cap0 : ℚ) : Option Metrics :=
  (run_backtest_core strat all_data mkt start cap0).bind (calculate_metrics cap0)

/-!
## `BacktestEngine.get_chart_data` (app.py:635-663)

The `'%m-%d'`/`'%Y-%m'` display formatting of the date is presentation
only; the point keeps the raw date.
-/

structure ChartPoint where
  date : ℕ
  value : ℚ
  return_pct : ℚ
  holding : String
  is_cash : Bool
deriving DecidableEq

/-- Embeds the map `{'week': 7, 'month': 30, 'half': 180, 'year': 365}`. -/
def periodDays : String → Option ℕ
  | "week" => some 7
  | "month" => some 30
  | "half" => some 180
  | "year" => some 365
  | _ => none

/-- Embeds `df.iloc[::k]`: every `k`-th element starting from the first. -/
def strideSel {α : Type} (k : ℕ) : List α → List α
  | [] => []
  | x :: rest => x :: strideSel k (rest.drop (k - 1))
termination_by l => l.length
decreasing_by
  simp only [List.length_drop, List.length_cons]
  omega

/-- Embeds `BacktestEngine.get_chart_data`: window filter by trailing days, then
thinning by stride `len // 60` whenever more than 60 points remain.
Naturals truncate `end_date - days` at 0, which coincides with the
source's negative timestamp lower bound (every date qualifies). -/
def get_chart_data (period : String) (nav_history : List NavPoint) :
    List ChartPoint :=
  match nav_history with
  | [] => []
  | _ =>
      let df : List NavPoint := nav_history.insertionSort (fun a b => a.date ≤ b.date)
      let endD := (df.map (·.date)).foldl max 0
      let filtered : List NavPoint :=
        match periodDays period with
        | some nd => df.filter fun p => endD - nd ≤ p.date
        | none => df
      let chosen :=
        if 60 < filtered.length then strideSel (filtered.length / 60) filtered
        else filtered
      chosen.map fun p =>
        { date := p.date, value := p.nav, return_pct := p.return_pct,
          holding := p.holding, is_cash := p.holding == "CASH" }

/-- Embeds `BacktestEngine.get_decisions`: last `limit` decisions, newest first. -/
def get_decisions (limit : ℕ) (decision_history : List Decision) : List Decision :=
  ((decision_history.drop (decision_history.length - limit)).reverse)

/-!
## Entry points (`Strategy.get_recommendation` app.py:679-775 and the
`/api/backtest` route app.py:1697-1722)

The fetch loop is the external collaborator: the entry points receive the
featured frames.  The recommendation result keeps the fields claims speak
about (status shape, chosen code, confidence, ranked scores); purely
presentational fields (display names, per-ETF price/change details,
market-status label) are omitted.
-/

inductive RecResult where
  | unimplementedShape (message : String)
  | noData
  | result (recommendation : String) (confidence : ℚ) (should_cash : Bool)
      (cash_reason : Option CashReason) (ranking : List (String × ℚ))
deriving DecidableEq

/-- Embeds `Strategy.get_recommendation`: the `unimplemented_strategies` gate
(app.py:681-699) fires before any data access; otherwise score every
frame with at least 30 rows, decide cash, and rank. -/
def get_recommendation (strat : StratType) (data : List (String × List FRow))
    (mkt : Option (List ℚ)) : RecResult :=
  if strat = .growth then .unimplementedShape "🚀 信仰成长策略 - 开发中"
  else
    let all_scores := data.filterMap fun p =>
      if p.2.length < 30 then none
      else some (p.1, round2 (predict strat p.2 mkt).1)
    if all_scores.isEmpty then .noData
    else
      let shc := should_hold_cash strat all_scores mkt
      let best := (argmaxKey all_scores).getD ""
      let recommendation := if shc.1 then "CASH" else best
      let confidence := if shc.1 then 0 else (all_scores.lookup best).getD 0
      let ranking :=
        ("CASH", (0 : ℚ)) :: all_scores.insertionSort (fun a b => b.2 ≤ a.2)
      .result recommendation confidence shc.1
        (if shc.1 then some shc.2 else none) ranking

/-- The JSON shapes the `/api/backtest` route can answer with.  The
`unimplementedShape` constructor is the distinct shape §7 of the spec
requires for a not-production-ready strategy; the route's code produces
only the other two. -/
inductive BacktestResponse where
  | error
  | unimplementedShape
  | success (metrics : Metrics) (chart : List ChartPoint) (period : String)
deriving DecidableEq

def BacktestResponse.isSuccess : BacktestResponse → Bool
  | .success _ _ _ => true
  | _ => false

def BacktestResponse.isUnimpl : BacktestResponse → Bool
  | .unimplementedShape => true
  | _ => false

/-- The `/api/backtest` route body (app.py:1697-1722): run the backtest
with the default capital of 100000, answer an error on failure, else the
metrics plus chart projection. -/
def backtest_api (strat : StratType) (all_data : List (String × List FRow))
    (mkt : Option (List (ℕ × ℚ))) (start : ℕ) (period : String) :
    BacktestResponse :=
  match run_backtest_core strat all_data mkt start 100000 with
  | none => .error
  | some st =>
      match calculate_metrics 100000 st with
      | none => .error
      | some m => .success m (get_chart_data period st.nav_history) period

/-!
## Rounding lemmas
-/

theorem round2_isTwoDec (x : ℚ) : IsTwoDec (round2 x) :=
  ⟨round (x * 100), by norm_num [round2, roundTo]⟩

theorem round_q_mono {a b : ℚ} (h : a ≤ b) : round a ≤ round b := by
  rw [round_eq, round_eq]
  exact Int.floor_le_floor (by linarith)

theorem round2_bounds {x : ℚ} (h0 : 0 ≤ x) (h1 : x ≤ 100) :
    0 ≤ round2 x ∧ round2 x ≤ 100 := by
  have e : ((10 : ℚ)) ^ 2 = 100 := by norm_num
  have hlo : round (0 : ℚ) ≤ round (x * 10 ^ 2) := round_q_mono (by nlinarith)
  rw [round_zero] at hlo
  have hhi : round (x * 10 ^ 2) ≤ round ((10000 : ℚ)) := round_q_mono (by nlinarith)
  have h4 : round ((10000 : ℚ)) = 10000 := by
    rw [show ((10000 : ℚ)) = ((10000 : ℤ) : ℚ) by norm_num, round_intCast]
  rw [h4] at hhi
  constructor
  · simp only [round2, roundTo]
    apply div_nonneg _ (by positivity)
    exact_mod_cast hlo
  · simp only [round2, roundTo]
    rw [div_le_iff₀ (by positivity)]
    calc ((round (x * 10 ^ 2) : ℤ) : ℚ) ≤ ((10000 : ℤ) : ℚ) := by exact_mod_cast hhi
      _ ≤ 100 * 10 ^ 2 := by norm_num

theorem round2_idem {x : ℚ} (h : IsTwoDec x) : round2 x = x := by
  obtain ⟨n, rfl⟩ := h
  simp only [round2, roundTo]
  have h2 : (n : ℚ) / 100 * 10 ^ 2 = (n : ℚ) := by
    rw [show ((10 : ℚ)) ^ 2 = 100 by norm_num]
    field_simp
  rw [h2, round_intCast]
  norm_num

/-- Evaluation rule for `round2` via the floor characterisation; lets
`norm_num` settle concrete roundings without deep kernel reduction. -/
theorem round2_eq_of (x : ℚ) (n : ℤ) (h1 : (n : ℚ) ≤ x * 100 + 1/2)
    (h2 : x * 100 + 1/2 < (n : ℚ) + 1) : round2 x = (n : ℚ) / 100 := by
  have hr : round (x * 10 ^ 2) = n := by
    rw [round_eq]
    apply Int.floor_eq_iff.mpr
    constructor
    · calc (n : ℚ) ≤ x * 100 + 1/2 := h1
        _ = x * 10 ^ 2 + 1/2 := by norm_num
    · calc x * 10 ^ 2 + 1/2 = x * 100 + 1/2 := by norm_num
        _ < (n : ℚ) + 1 := h2
  simp only [round2, roundTo, hr]
  norm_num

/-- Integer rationals are fixed by `round2`. -/
theorem round2_int (n : ℤ) : round2 ((n : ℚ)) = (n : ℚ) :=
  round2_idem ⟨n * 100, by push_cast; field_simp⟩

/-- Integer rationals are fixed by `round3`. -/
theorem round3_int (n : ℤ) : round3 ((n : ℚ)) = (n : ℚ) := by
  simp only [round3, roundTo]
  have h2 : (n : ℚ) * 10 ^ 3 = ((n * 1000 : ℤ) : ℚ) := by push_cast; ring
  rw [h2, round_intCast]
  push_cast
  rw [show ((10 : ℚ)) ^ 3 = 1000 by norm_num, mul_div_assoc]
  norm_num

/-!
## C10 — empty frame short-circuit
-/

/-- C10: calling `predict` with an empty price/feature series returns
exactly `(50.0, {})` for every strategy variant and every benchmark
argument (app.py:233-234). -/
theorem c10_predict_empty (strat : StratType) (mkt : Option (List ℚ)) :
    predict strat ([] : List FRow) mkt = (50, []) := rfl

/-!
## C5 — score bound and precision
-/

/-- C5: for every input accepted by `predict` — any strategy, any
feature frame, any benchmark — the returned score lies in `[0, 100]` and
has exactly two decimal places; re-rounding it to two decimals (which is
what the external exposure points at app.py:496 and app.py:724 do)
leaves it unchanged, so every externally exposed per-instrument score
carries the same bound and precision. -/
theorem c5_score_bound_twodec (strat : StratType) (df : List FRow)
    (mkt : Option (List ℚ)) :
    0 ≤ (predict strat df mkt).1 ∧ (predict strat df mkt).1 ≤ 100 ∧
    IsTwoDec (predict strat df mkt).1 ∧
    round2 (predict strat df mkt).1 = (predict strat df mkt).1 := by
  cases hdf : df.getLast? with
  | none =>
      simp only [predict, hdf]
      exact ⟨by norm_num, by norm_num, ⟨5000, by norm_num⟩,
        round2_idem ⟨5000, by norm_num⟩⟩
  | some latest =>
      simp only [predict, hdf]
      have h0 : 0 ≤ min (max (predictRaw strat df latest).1 0) 100 :=
        le_min (le_max_right _ _) (by norm_num)
      have h1 : min (max (predictRaw strat df latest).1 0) 100 ≤ 100 :=
        min_le_right _ _
      obtain ⟨b0, b1⟩ := round2_bounds h0 h1
      exact ⟨b0, b1, round2_isTwoDec _, round2_idem (round2_isTwoDec _)⟩

/-!
## C3 — the value strategy's weighted sum is dead code

For `strategy_type == 'value'` the `'ma20_bias' in latest` test is True
on every featured frame, so the first branch of the if/elif chain
(app.py:241) is always taken and the generic weighted-sum branch
(app.py:350, guarded `elif score == 50.0` with the comment that normal
scoring happens whenever the stop-loss did not fire) is unreachable:
with a non-negative bias the score stays at the bare 50.0 baseline and
the configured weights are never applied.
-/

def c3row : FRow :=
  { date := 0, openPrice := 10, closePrice := 10,
    return_5 := some (1/5), ma20_bias := some (1/100) }

/-- C3: failing input for the claim.  On a value-strategy frame whose
latest bias-from-MA20 is `+0.01` and whose 5-day return is `+0.20`, the
claim (and the source's own comment at app.py:350) promise
`50 + 0.01×0.60×100 + 0.20×0.05×100 = 51.6`, but `predict` returns the
bare baseline 50.0: the weighted sum is bypassed by the `elif` chain. -/
theorem c3_value_weighted_sum_dead :
    (predictRaw .value [c3row] c3row).1 = 50 ∧
    (predict .value [c3row] none).1 = 50 ∧
    ((50 : ℚ) == 50 + (1/100) * (60/100) * 100 + (1/5) * (5/100) * 100) = false := by
  with_unfolding_all decide

/-!
## C7 — RSI with zero average loss
-/

/-- C7 counterexample: on 15 constant closes every 14-day change is
non-negative (all are zero), `avg_loss = 0` and `avg_gain = 0`, and the
unguarded `100 - 100/(1 + gain/loss)` evaluates to NaN — not 100, and a
non-finite value is produced. -/
theorem c7_rsi_nan_cex :
    (rsi14 (List.replicate 15 (10 : ℚ))).getLast? = some PVal.nan ∧
    ((PVal.nan == PVal.num 100) = false) := by
  with_unfolding_all decide

theorem get?_zipWith_some {α β γ : Type} (f : α → β → γ) {l1 : List α}
    {l2 : List β} {i : ℕ} {a : α} {b : β} (h1 : l1.get? i = some a)
    (h2 : l2.get? i = some b) : (List.zipWith f l1 l2).get? i = some (f a b) := by
  rw [List.get?_zipWith', h1, h2]
  rfl

/-- C7 amended: when the 14-day average loss is exactly zero and the
average gain is positive, the computed RSI does equal 100 — but through
IEEE infinity propagation (`rs = inf`, `100/(1+inf) = 0`), not an
explicit guard; and when the average gain is also zero (all changes
zero) the RSI is NaN rather than 100, as the counterexample shows. -/
theorem c7_rsi_100_when_gain_pos (closes : List ℚ) (t : ℕ) (g : ℚ)
    (hg : (rollingMean 14 (gains closes)).getD t none = some g)
    (hl : (rollingMean 14 (losses closes)).getD t none = some 0)
    (hgpos : 0 < g) :
    (rsi14 closes).getD t PVal.nan = PVal.num 100 := by
  have hg2 : (rollingMean 14 (gains closes)).get? t = some (some g) := by
    cases h : (rollingMean 14 (gains closes)).get? t with
    | none => simp [List.getD_eq_getElem?_getD, ← List.get?_eq_getElem?, h] at hg
    | some v =>
        have : v = some g := by
          simpa [List.getD_eq_getElem?_getD, ← List.get?_eq_getElem?, h] using hg
        rw [this]
  have hl2 : (rollingMean 14 (losses closes)).get? t = some (some 0) := by
    cases h : (rollingMean 14 (losses closes)).get? t with
    | none => simp [List.getD_eq_getElem?_getD, ← List.get?_eq_getElem?, h] at hl
    | some v =>
        have : v = some 0 := by
          simpa [List.getD_eq_getElem?_getD, ← List.get?_eq_getElem?, h] using hl
        rw [this]
  have hz : (rsi14 closes).get? t =
      some (PVal.sub (.num 100) (PVal.div (.num 100)
        (PVal.add (.num 1) (PVal.div (toPVal (some g)) (toPVal (some 0)))))) :=
    get?_zipWith_some _ hg2 hl2
  have hval : PVal.sub (.num 100) (PVal.div (.num 100)
      (PVal.add (.num 1) (PVal.div (toPVal (some g)) (toPVal (some 0))))) =
      PVal.num 100 := by
    simp [toPVal, PVal.div, PVal.add, PVal.sub, hgpos, hgpos.ne']
  rw [List.getD_eq_getElem?_getD, ← List.get?_eq_getElem?, hz, hval]
  rfl

def c7closes : List ℚ := (List.range 15).map fun i => (i : ℚ) + 1

/-- C7 amended witness: strictly rising closes give average gain 1,
average loss 0, RSI 100 at the last index. -/
theorem c7_rsi_100_witness :
    (rollingMean 14 (gains c7closes)).getD 14 none = some 1 ∧
    (rollingMean 14 (losses c7closes)).getD 14 none = some 0 ∧
    (0 : ℚ) < 1 ∧ (rsi14 c7closes).getD 14 PVal.nan = PVal.num 100 :=
  ⟨by with_unfolding_all decide, by with_unfolding_all decide, by norm_num,
    c7_rsi_100_when_gain_pos c7closes 14 1 (by with_unfolding_all decide)
      (by with_unfolding_all decide) (by norm_num)⟩

/-!
## C8 — chart downsampling
-/

theorem strideSel_length {α : Type} (k : ℕ) (hk : 0 < k) :
    ∀ n (l : List α), l.length ≤ n →
      (strideSel k l).length = (l.length + k - 1) / k := by
  intro n
  induction n with
  | zero =>
      intro l hl
      have : l = [] := List.eq_nil_of_length_eq_zero (by omega)
      subst this
      simp only [strideSel, List.length_nil]
      rw [Nat.div_eq_of_lt (by omega)]
  | succ n ih =>
      intro l hl
      match l with
      | [] =>
          simp only [strideSel, List.length_nil]
          rw [Nat.div_eq_of_lt (by omega)]
      | x :: rest =>
          rw [strideSel]
          have h2 := ih (rest.drop (k - 1))
            (by simp only [List.length_drop]; simp at hl; omega)
          simp only [List.length_cons, List.length_drop] at h2 ⊢
          rw [h2]
          rcases Nat.lt_or_ge rest.length (k - 1) with h | h
          · rw [Nat.div_eq_of_lt (by omega)]
            have hr : rest.length + 1 + k - 1 = rest.length + k := by omega
            rw [hr, Nat.add_div_right _ hk, Nat.div_eq_of_lt (by omega)]
          · have hm : rest.length - (k - 1) + k - 1 = rest.length := by omega
            have hr : rest.length + 1 + k - 1 = rest.length + k := by omega
            rw [hm, hr, Nat.add_div_right _ hk]

theorem strideSel_length_le_119 {α : Type} (l : List α) :
    (if 60 < l.length then strideSel (l.length / 60) l else l).length ≤ 119 := by
  by_cases h : 60 < l.length
  · rw [if_pos h]
    have hk : 0 < l.length / 60 := Nat.div_pos (by omega) (by norm_num)
    rw [strideSel_length (l.length / 60) hk l.length l le_rfl]
    have hdm := Nat.div_add_mod l.length 60
    have hml : l.length % 60 < 60 := Nat.mod_lt _ (by norm_num)
    rw [Nat.div_le_iff_le_mul_add_pred hk]
    omega
  · rw [if_neg h]
    omega

def hist61 : List NavPoint :=
  (List.range 61).map fun i =>
    { date := i, nav := 1, holding := "CASH", return_pct := 0 }

/-- C8 counterexample: a 61-point NAV history is larger than 60 points,
so the stride becomes `61 // 60 = 1` and `iloc[::1]` keeps all 61
points — the chart projection exceeds 60 points. -/
theorem c8_chart_61_cex : 60 < (get_chart_data "all" hist61).length := by
  with_unfolding_all decide

/-- C8 amended: the chart projection contains at most 119 points (the
stride `len // 60` bounds `ceil(len / (len // 60))` by 119, attained at
`len = 119`, not by 60 as claimed), and every returned point is flagged
as cash-period exactly when its holding is the `'CASH'` sentinel. -/
theorem c8_chart_bound_and_cash_flag (period : String) (hist : List NavPoint) :
    (get_chart_data period hist).length ≤ 119 ∧
    ∀ e ∈ get_chart_data period hist, e.is_cash = (e.holding == "CASH") := by
  match hh : hist with
  | [] => exact ⟨by simp [get_chart_data], by simp [get_chart_data]⟩
  | p0 :: rest =>
      constructor
      · show (List.map _ _).length ≤ 119
        rw [List.length_map]
        exact strideSel_length_le_119 _
      · intro e he
        obtain ⟨q, _, hq⟩ := List.mem_map.1 he
        subst hq
        rfl

/-- C8 amended witness: the 61-point history stays within the 119-point
bound and its first point is cash-flagged consistently. -/
theorem c8_chart_bound_witness :
    (get_chart_data "all" hist61).length ≤ 119 ∧
    ({ date := 0, value := 1, return_pct := 0, holding := "CASH",
       is_cash := true } : ChartPoint).is_cash =
      (({ date := 0, value := 1, return_pct := 0, holding := "CASH",
          is_cash := true } : ChartPoint).holding == "CASH") :=
  ⟨(c8_chart_bound_and_cash_flag "all" hist61).1,
   (c8_chart_bound_and_cash_flag "all" hist61).2 _ (by with_unfolding_all decide)⟩

/-!
## C4 — the cash-decision predicate
-/

/-- C4: `should_hold_cash` returns true exactly when the score map is
empty, or the maximum score is below the strategy's cash threshold, or
the benchmark's trailing 5-day return exists (frame present with more
than 5 rows) and is below the bear-market threshold, or the average
score is below 40 with a max-average spread under 10; and the returned
reason is the favorable message exactly when the flag is false. -/
theorem c4_should_hold_cash_iff (strat : StratType)
    (scores : List (String × ℚ)) (mkt : Option (List ℚ)) :
    ((should_hold_cash strat scores mkt).1 = true ↔
      scores = [] ∨ maxScore scores < (config strat).cash_threshold ∨
      (∃ cs, mkt = some cs ∧ 5 < cs.length ∧
        marketRet5 cs < (config strat).market_bear_threshold) ∨
      (avgScore scores < 40 ∧ maxScore scores - avgScore scores < 10)) ∧
    ((should_hold_cash strat scores mkt).2 = CashReason.favorable ↔
      (should_hold_cash strat scores mkt).1 = false) := by
  cases scores with
  | nil => rcases mkt with _ | cs <;> simp [should_hold_cash]
  | cons x rest =>
      rcases mkt with _ | cs
      · simp only [should_hold_cash, shcTail]
        split_ifs <;> simp_all
      · simp only [should_hold_cash, shcTail]
        split_ifs <;> simp_all

/-!
## Evaluation lemmas for the day-loop phases

Closed-form equations for each reachable branch of `decisionPhase` and
`navPhase`, used both to settle the general claims and to evaluate the
concrete scenario runs step by step.
-/

theorem computeScores_ne_empty {strat : StratType} {yd : List (String × List FRow)}
    {mk : Option (List ℚ)} {S : List (String × ℚ)}
    (hS : computeScores strat yd mk = S) (hne : S ≠ []) : yd.isEmpty = false := by
  cases yd with
  | nil => subst hS; simp [computeScores] at hne
  | cons _ _ => rfl

theorem decisionPhase_no_yesterday (strat : StratType)
    (all_data : List (String × List FRow)) (mkt : Option (List (ℕ × ℚ)))
    (today : ℕ) (td : List (String × FRow)) (st : BTState) :
    decisionPhase strat all_data mkt none today td st =
      { st with decision_history := st.decision_history ++
          [{ date := today, prev_holding := st.holding.getD "CASH", scores := [],
             decision := "", reason := .empty, action := "HOLD" }] } := rfl

theorem decisionPhase_cash_from_none (strat : StratType)
    (all_data : List (String × List FRow)) (mkt : Option (List (ℕ × ℚ)))
    (yd today : ℕ) (td : List (String × FRow)) (st : BTState)
    (S : List (String × ℚ)) (c : CashReason)
    (hhold : st.holding = none)
    (hS : computeScores strat (yesterdayData all_data yd) (marketYest mkt yd) = S)
    (hne : S ≠ [])
    (hshc : should_hold_cash strat S (marketYest mkt yd) = (true, c)) :
    decisionPhase strat all_data mkt (some yd) today td st =
      { st with
        holding := some "CASH",
        trade_log := st.trade_log ++ [.cashRec today c (round2 st.cash)],
        decision_history := st.decision_history ++
          [{ date := today, prev_holding := "CASH",
             scores := S.map fun p => (p.1, round2 p.2),
             decision := "CASH", reason := .cash c, action := "BUY" }] } := by
  have hy := computeScores_ne_empty hS hne
  simp [decisionPhase, hy, hS, hshc, hhold]

theorem decisionPhase_cash_from_cash (strat : StratType)
    (all_data : List (String × List FRow)) (mkt : Option (List (ℕ × ℚ)))
    (yd today : ℕ) (td : List (String × FRow)) (st : BTState)
    (S : List (String × ℚ)) (c : CashReason)
    (hhold : st.holding = some "CASH")
    (hS : computeScores strat (yesterdayData all_data yd) (marketYest mkt yd) = S)
    (hne : S ≠ [])
    (hshc : should_hold_cash strat S (marketYest mkt yd) = (true, c)) :
    decisionPhase strat all_data mkt (some yd) today td st =
      { st with
        decision_history := st.decision_history ++
          [{ date := today, prev_holding := "CASH",
             scores := S.map fun p => (p.1, round2 p.2),
             decision := "CASH", reason := .holdCont (.cash c), action := "HOLD" }] } := by
  have hy := computeScores_ne_empty hS hne
  simp [decisionPhase, hy, hS, hshc, hhold]

theorem decisionPhase_cash_from_invested (strat : StratType)
    (all_data : List (String × List FRow)) (mkt : Option (List (ℕ × ℚ)))
    (yd today : ℕ) (td : List (String × FRow)) (st : BTState)
    (S : List (String × ℚ)) (c : CashReason) (a : String) (row : FRow)
    (hhold : st.holding = some a) (ha : a ≠ "CASH")
    (hrow : td.lookup a = some row)
    (hS : computeScores strat (yesterdayData all_data yd) (marketYest mkt yd) = S)
    (hne : S ≠ [])
    (hshc : should_hold_cash strat S (marketYest mkt yd) = (true, c)) :
    decisionPhase strat all_data mkt (some yd) today td st =
      { st with
        holding := some "CASH",
        shares := 0,
        cash := st.shares * row.openPrice -
          max (st.shares * row.openPrice * commissionRate) minCommission,
        trade_log := st.trade_log ++
          [.sell today a (round3 row.openPrice) (round2 st.shares)
             (round2 (st.shares * row.openPrice)),
           .cashRec today c (round2 (st.shares * row.openPrice -
             max (st.shares * row.openPrice * commissionRate) minCommission))],
        decision_history := st.decision_history ++
          [{ date := today, prev_holding := a,
             scores := S.map fun p => (p.1, round2 p.2),
             decision := "CASH", reason := .cash c, action := "SELL" }] } := by
  have hy := computeScores_ne_empty hS hne
  simp [decisionPhase, hy, hS, hshc, hhold, ha, hrow]

theorem decisionPhase_buy_from_none (strat : StratType)
    (all_data : List (String × List FRow)) (mkt : Option (List (ℕ × ℚ)))
    (yd today : ℕ) (td : List (String × FRow)) (st : BTState)
    (S : List (String × ℚ)) (c : CashReason) (b : String) (ts : ℚ) (row : FRow)
    (hhold : st.holding = none)
    (hS : computeScores strat (yesterdayData all_data yd) (marketYest mkt yd) = S)
    (hne : S ≠ [])
    (hshc : should_hold_cash strat S (marketYest mkt yd) = (false, c))
    (hb : argmaxKey S = some b) (hts : S.lookup b = some ts) (hbc : b ≠ "CASH")
    (hrow : td.lookup b = some row) :
    decisionPhase strat all_data mkt (some yd) today td st =
      { holding := some b,
        shares := (st.cash - max (st.cash * commissionRate) minCommission) /
          row.openPrice,
        cash := 0,
        trade_log := st.trade_log ++
          [.buy today b (round3 row.openPrice)
             (round2 ((st.cash - max (st.cash * commissionRate) minCommission) /
               row.openPrice)) (round2 ts)],
        nav_history := st.nav_history,
        decision_history := st.decision_history ++
          [{ date := today, prev_holding := "CASH",
             scores := S.map fun p => (p.1, round2 p.2),
             decision := b, reason := .topScore ts, action := "BUY" }] } := by
  have hy := computeScores_ne_empty hS hne
  simp [decisionPhase, hy, hS, hshc, hhold, hb, hts, hbc, hrow, Ne.symm hbc]

theorem navPhase_none (cap0 : ℚ) (today : ℕ) (td : List (String × FRow))
    (st : BTState) (hhold : st.holding = none) :
    navPhase cap0 today td st =
      { st with nav_history := st.nav_history ++
          [{ date := today, nav := round2 st.cash, holding := "CASH",
             return_pct := round2 ((st.cash / cap0 - 1) * 100) }] } := by
  simp [navPhase, hhold]

theorem navPhase_cash (cap0 : ℚ) (today : ℕ) (td : List (String × FRow))
    (st : BTState) (hhold : st.holding = some "CASH") :
    navPhase cap0 today td st =
      { st with
        cash := st.cash * (1 + dailyCashReturn),
        nav_history := st.nav_history ++
          [{ date := today, nav := round2 (st.cash * (1 + dailyCashReturn)),
             holding := "CASH",
             return_pct := round2 (((st.cash * (1 + dailyCashReturn)) / cap0 - 1) * 100) }] } := by
  simp [navPhase, hhold]

theorem navPhase_invested (cap0 : ℚ) (today : ℕ) (td : List (String × FRow))
    (st : BTState) (h : String) (row : FRow) (hhold : st.holding = some h)
    (hnc : h ≠ "CASH") (hrow : td.lookup h = some row) :
    navPhase cap0 today td st =
      { st with nav_history := st.nav_history ++
          [{ date := today, nav := round2 (st.shares * row.closePrice),
             holding := h,
             return_pct := round2 ((st.shares * row.closePrice / cap0 - 1) * 100) }] } := by
  simp [navPhase, hhold, hnc, hrow]

/-!
## Concrete backtest scenario

Five instruments over two common trading days; on day 0 each carries a
5-day return of −30% so that every momentum score on day 1 is
`50 − 0.30×0.25×100 = 42.5`, below the momentum cash threshold 45.
-/

def btRow0 : FRow :=
  { date := 0, openPrice := 10, closePrice := 10, return_5 := some (-(3/10)) }

def btRow1 : FRow := { date := 1, openPrice := 10, closePrice := 10 }

def btData1 : List (String × List FRow) :=
  [("S1", [btRow0, btRow1]), ("S2", [btRow0, btRow1]), ("S3", [btRow0, btRow1]),
   ("S4", [btRow0, btRow1]), ("S5", [btRow0, btRow1])]

def btRun1 : Option BTState := run_backtest_core .momentum btData1 none 0 100000

/-!
## C2 — cash compounding and FLAT-day NAV
-/

def stInit : BTState :=
  { holding := none, shares := 0, cash := 100000, trade_log := [],
    nav_history := [], decision_history := [] }

def dec0lit : Decision :=
  { date := 0, prev_holding := "CASH", scores := [], decision := "",
    reason := .empty, action := "HOLD" }

def st0lit : BTState :=
  { holding := none, shares := 0, cash := 100000, trade_log := [],
    nav_history := [{ date := 0, nav := 100000, holding := "CASH", return_pct := 0 }],
    decision_history := [dec0lit] }

def scores1lit : List (String × ℚ) :=
  [("S1", 85/2), ("S2", 85/2), ("S3", 85/2), ("S4", 85/2), ("S5", 85/2)]

def dec1lit : Decision :=
  { date := 1, prev_holding := "CASH", scores := scores1lit, decision := "CASH",
    reason := .cash (.lowMax (85/2) 45), action := "BUY" }

def st1lit : BTState :=
  { holding := some "CASH", shares := 0, cash := 6300500/63,
    trade_log := [.cashRec 1 (.lowMax (85/2) 45) 100000],
    nav_history := [{ date := 0, nav := 100000, holding := "CASH", return_pct := 0 },
                    { date := 1, nav := 5000397/50, holding := "CASH", return_pct := 1/100 }],
    decision_history := [dec0lit, dec1lit] }

set_option maxRecDepth 100000 in
theorem btRun1_eq : btRun1 = some st1lit := by
  have hdates : tradeDates btData1 0 = [0, 1] := by with_unfolding_all decide
  have htd0 : todayData btData1 0 =
      [("S1", btRow0), ("S2", btRow0), ("S3", btRow0), ("S4", btRow0), ("S5", btRow0)] := by
    with_unfolding_all decide
  have htd1 : todayData btData1 1 =
      [("S1", btRow1), ("S2", btRow1), ("S3", btRow1), ("S4", btRow1), ("S5", btRow1)] := by
    with_unfolding_all decide
  have hS : computeScores .momentum (yesterdayData btData1 0) (marketYest none 0) =
      scores1lit := by
    with_unfolding_all decide
  have hshc : should_hold_cash .momentum scores1lit (marketYest none 0) =
      (true, .lowMax (85/2) 45) := by
    with_unfolding_all decide
  have e1 : round2 ((100000 : ℚ)) = 100000 := by
    have := round2_int 100000
    push_cast at this
    exact this
  have e2 : round2 ((((100000 : ℚ)) / 100000 - 1) * 100) = 0 := by
    rw [show ((((100000 : ℚ)) / 100000 - 1) * 100) = ((0 : ℤ) : ℚ) by norm_num]
    simpa using round2_int 0
  have e3 : round2 (100000 * (1 + dailyCashReturn)) = 5000397/50 := by
    rw [round2_eq_of _ 10000794 (by norm_num [dailyCashReturn])
      (by norm_num [dailyCashReturn])]
    norm_num
  have e4 : round2 ((100000 * (1 + dailyCashReturn) / 100000 - 1) * 100) = 1/100 := by
    rw [round2_eq_of _ 1 (by norm_num [dailyCashReturn]) (by norm_num [dailyCashReturn])]
    norm_num
  have e5 : round2 ((85 : ℚ)/2) = 85/2 := by
    rw [round2_eq_of _ 4250 (by norm_num) (by norm_num)]
    norm_num
  have hd0 : dayStep .momentum btData1 none 100000 none 0 stInit = st0lit := by
    simp only [dayStep, htd0]
    rw [if_neg (by with_unfolding_all decide)]
    rw [decisionPhase_no_yesterday, navPhase_none _ _ _ _ rfl]
    simp only [stInit, st0lit, dec0lit, Option.getD_none, List.nil_append]
    rw [e1, e2]
  have hd1 : dayStep .momentum btData1 none 100000 (some 0) 1 st0lit = st1lit := by
    simp only [dayStep, htd1]
    rw [if_neg (by with_unfolding_all decide)]
    rw [decisionPhase_cash_from_none .momentum btData1 none 0 1 _ st0lit scores1lit _
      rfl hS (by with_unfolding_all decide) hshc]
    rw [navPhase_cash _ _ _ _ rfl]
    simp only [st0lit, st1lit, stInit, dec0lit, dec1lit, scores1lit,
      List.map_cons, List.map_nil, List.append_nil, List.nil_append,
      List.cons_append, List.singleton_append]
    rw [e1, e3, e4, e5]
    norm_num [dailyCashReturn]
  show run_backtest_core .momentum btData1 none 0 100000 = some st1lit
  simp only [run_backtest_core]
  rw [if_neg (by with_unfolding_all decide), hdates]
  show some (runDays .momentum btData1 none 100000 none [0, 1] stInit) = some st1lit
  simp only [runDays]
  rw [hd0, hd1]

/-- C2 counterexample: in the scenario run, day 0 is a FLAT day (its NAV
record shows the `'CASH'` sentinel, no trade has ever happened), yet the
recorded NAV is the unchanged 100000 — the cash balance is not
multiplied by `(1 + 0.02/252)` on that day, because the code only
compounds when the holding variable has been explicitly set to
`'CASH'` by a decision, which never happened before day 1. -/
theorem c2_flat_day0_not_compounded_cex :
    (btRun1.map fun st => st.nav_history.map fun p => (p.date, p.nav, p.holding)) =
      some [(0, 100000, "CASH"), (1, 5000397/50, "CASH")] ∧
    ((100000 : ℚ) == round2 (100000 * (1 + dailyCashReturn))) = false := by
  have e3 : round2 (100000 * (1 + dailyCashReturn)) = 5000397/50 := by
    rw [round2_eq_of _ 10000794 (by norm_num [dailyCashReturn])
      (by norm_num [dailyCashReturn])]
    norm_num
  constructor
  · rw [btRun1_eq]
    simp only [Option.map_some', st1lit, List.map_cons, List.map_nil]
  · rw [e3]
    simp only [beq_eq_false_iff_ne, ne_eq]
    norm_num

/-- C2 amended: on any processed trading day the cash balance is
multiplied by `(1 + 0.02/252)` exactly once — and the day's NAV record
equals that compounded balance rounded to 2 decimals — if and only if
the holding after the day's decision is the explicit `'CASH'` sentinel;
on days where no decision has ever set a holding (holding still unset,
externally also displayed as the cash sentinel) the balance is left
unchanged and the NAV record equals the unchanged balance. -/
theorem c2_cash_compounds_only_when_cash (cap0 : ℚ) (today : ℕ)
    (td : List (String × FRow)) (st : BTState) :
    (st.holding = some "CASH" →
      navPhase cap0 today td st =
        { st with
          cash := st.cash * (1 + dailyCashReturn),
          nav_history := st.nav_history ++
            [{ date := today, nav := round2 (st.cash * (1 + dailyCashReturn)),
               holding := "CASH",
               return_pct := round2 (((st.cash * (1 + dailyCashReturn)) / cap0 - 1) * 100) }] }) ∧
    (st.holding = none →
      navPhase cap0 today td st =
        { st with
          nav_history := st.nav_history ++
            [{ date := today, nav := round2 st.cash, holding := "CASH",
               return_pct := round2 ((st.cash / cap0 - 1) * 100) }] }) := by
  constructor
  · intro h
    simp [navPhase, h]
  · intro h
    simp [navPhase, h]

def stCashW : BTState :=
  { holding := some "CASH", shares := 0, cash := 100, trade_log := [],
    nav_history := [], decision_history := [] }

/-- C2 amended witness: a state explicitly holding the cash sentinel
compounds once and records the compounded NAV. -/
theorem c2_cash_compounds_witness :
    stCashW.holding = some "CASH" ∧
    navPhase 100000 3 [] stCashW =
      { stCashW with
        cash := stCashW.cash * (1 + dailyCashReturn),
        nav_history := stCashW.nav_history ++
          [{ date := 3, nav := round2 (stCashW.cash * (1 + dailyCashReturn)),
             holding := "CASH",
             return_pct := round2 (((stCashW.cash * (1 + dailyCashReturn)) / 100000 - 1) * 100) }] } :=
  ⟨rfl, (c2_cash_compounds_only_when_cash 100000 3 [] stCashW).1 rfl⟩

/-!
## C1 — all-scores-below-threshold days
-/

theorem foldl_max_lt {c : ℚ} : ∀ (l : List ℚ) (a : ℚ), a < c →
    (∀ x ∈ l, x < c) → l.foldl max a < c := by
  intro l
  induction l with
  | nil => intro a ha _; simpa using ha
  | cons y ys ih =>
      intro a ha hall
      simp only [List.foldl_cons]
      exact ih (max a y) (max_lt ha (hall y (by simp)))
        (fun x hx => hall x (by simp [hx]))

theorem maxScore_lt {c : ℚ} {S : List (String × ℚ)} (hne : S ≠ [])
    (hall : ∀ p ∈ S, p.2 < c) : maxScore S < c := by
  match S with
  | [] => exact absurd rfl hne
  | x :: rest =>
      simp only [maxScore]
      refine foldl_max_lt _ _ (hall x (by simp)) (fun v hv => ?_)
      obtain ⟨p, hp, hpv⟩ := List.mem_map.1 hv
      exact hpv ▸ hall p (by simp [hp])

theorem shc_lowMax (strat : StratType) {S : List (String × ℚ)}
    (mkt : Option (List ℚ)) (hne : S ≠ [])
    (hmax : maxScore S < (config strat).cash_threshold) :
    should_hold_cash strat S mkt =
      (true, .lowMax (maxScore S) (config strat).cash_threshold) := by
  match S with
  | [] => exact absurd rfl hne
  | x :: rest =>
      simp only [should_hold_cash]
      rw [if_pos hmax]

/-- C1 amended: on a day whose evaluated scores are all below the
strategy's cash threshold, the recorded decision has `decision = "CASH"`
with the low-max reason, but its `action` is never `"CASH"` (no such
action exists in the code): it is `"BUY"` when no holding was ever set,
`"HOLD"` when the holding is already the cash sentinel, and `"SELL"`
when invested; the only trade records logged that day are the
instrument-free CASH marker and — only when previously invested — the
SELL of that instrument. -/
theorem c1_below_threshold_goes_cash (strat : StratType)
    (all_data : List (String × List FRow)) (mkt : Option (List (ℕ × ℚ)))
    (yd today : ℕ) (td : List (String × FRow)) (st : BTState)
    (S : List (String × ℚ))
    (hS : computeScores strat (yesterdayData all_data yd) (marketYest mkt yd) = S)
    (hne : S ≠ [])
    (hall : ∀ p ∈ S, p.2 < (config strat).cash_threshold) :
    (st.holding = none →
      decisionPhase strat all_data mkt (some yd) today td st =
        { st with
          holding := some "CASH",
          trade_log := st.trade_log ++
            [.cashRec today (.lowMax (maxScore S) (config strat).cash_threshold)
               (round2 st.cash)],
          decision_history := st.decision_history ++
            [{ date := today, prev_holding := "CASH",
               scores := S.map fun p => (p.1, round2 p.2),
               decision := "CASH",
               reason := .cash (.lowMax (maxScore S) (config strat).cash_threshold),
               action := "BUY" }] }) ∧
    (st.holding = some "CASH" →
      decisionPhase strat all_data mkt (some yd) today td st =
        { st with
          decision_history := st.decision_history ++
            [{ date := today, prev_holding := "CASH",
               scores := S.map fun p => (p.1, round2 p.2),
               decision := "CASH",
               reason := .holdCont (.cash (.lowMax (maxScore S)
                 (config strat).cash_threshold)),
               action := "HOLD" }] }) ∧
    (∀ (a : String) (row : FRow), st.holding = some a → a ≠ "CASH" →
      td.lookup a = some row →
      decisionPhase strat all_data mkt (some yd) today td st =
        { st with
          holding := some "CASH",
          shares := 0,
          cash := st.shares * row.openPrice -
            max (st.shares * row.openPrice * commissionRate) minCommission,
          trade_log := st.trade_log ++
            [.sell today a (round3 row.openPrice) (round2 st.shares)
               (round2 (st.shares * row.openPrice)),
             .cashRec today (.lowMax (maxScore S) (config strat).cash_threshold)
               (round2 (st.shares * row.openPrice -
                 max (st.shares * row.openPrice * commissionRate) minCommission))],
          decision_history := st.decision_history ++
            [{ date := today, prev_holding := a,
               scores := S.map fun p => (p.1, round2 p.2),
               decision := "CASH",
               reason := .cash (.lowMax (maxScore S) (config strat).cash_threshold),
               action := "SELL" }] }) := by
  have hshc : should_hold_cash strat S (marketYest mkt yd) =
      (true, .lowMax (maxScore S) (config strat).cash_threshold) :=
    shc_lowMax strat _ hne (maxScore_lt hne hall)
  refine ⟨fun h => ?_, fun h => ?_, fun a row h ha hrow => ?_⟩
  · exact decisionPhase_cash_from_none strat all_data mkt yd today td st S _
      h hS hne hshc
  · exact decisionPhase_cash_from_cash strat all_data mkt yd today td st S _
      h hS hne hshc
  · exact decisionPhase_cash_from_invested strat all_data mkt yd today td st S _
      a row h ha hrow hS hne hshc

set_option maxRecDepth 100000 in
/-- C1 counterexample: in the scenario run every day-1 score (42.5) is
below the momentum cash threshold 45, the recorded decision is
`decision = "CASH"` — but its `action` is `"BUY"`, not `"CASH"` (the
previous holding was the initial unset holding). -/
theorem c1_action_not_cash_cex :
    (btRun1.map fun st => st.decision_history.map fun d => (d.decision, d.action)) =
      some [("", "HOLD"), ("CASH", "BUY")] ∧
    (("BUY" : String) == "CASH") = false ∧
    (btRun1.map fun st => st.decision_history.map fun d => d.scores) =
      some [[], scores1lit] ∧
    (scores1lit.all fun p => p.2 < (config .momentum).cash_threshold) = true := by
  refine ⟨?_, by with_unfolding_all decide, ?_, by with_unfolding_all decide⟩
  · rw [btRun1_eq]
    simp only [Option.map_some', st1lit, dec0lit, dec1lit, List.map_cons,
      List.map_nil]
  · rw [btRun1_eq]
    simp only [Option.map_some', st1lit, dec0lit, dec1lit, List.map_cons,
      List.map_nil]

set_option maxRecDepth 100000 in
/-- C1 amended witness: the concrete scenario's day-1 decision phase from
the unset holding. -/
theorem c1_below_threshold_witness :
    (scores1lit.all fun p => p.2 < (config .momentum).cash_threshold) = true ∧
    decisionPhase .momentum btData1 none (some 0) 1 (todayData btData1 1) st0lit =
      { st0lit with
        holding := some "CASH",
        trade_log := st0lit.trade_log ++
          [.cashRec 1 (.lowMax (maxScore scores1lit) (config .momentum).cash_threshold)
             (round2 st0lit.cash)],
        decision_history := st0lit.decision_history ++
          [{ date := 1, prev_holding := "CASH",
             scores := scores1lit.map fun p => (p.1, round2 p.2),
             decision := "CASH",
             reason := .cash (.lowMax (maxScore scores1lit)
               (config .momentum).cash_threshold),
             action := "BUY" }] } :=
  ⟨by with_unfolding_all decide,
   (c1_below_threshold_goes_cash .momentum btData1 none 0 1 (todayData btData1 1)
     st0lit scores1lit (by with_unfolding_all decide) (by with_unfolding_all decide)
     (by with_unfolding_all decide)).1 rfl⟩

/-!
## C9 — SWITCH transitions
-/

/-- C9: whenever the simulator is invested in `a` and the (non-cash)
target computed from yesterday's scores is a different instrument `b`
present in today's data, the day's decision phase appends exactly two
trade records dated today — first a SELL of `a` at today's open, then a
BUY of `b` at today's open — with the commission
`max(trade_value × 0.0001, 5)` deducted on each leg: the cash credited
by the sale is the sell value minus its commission, and the shares
bought are the remaining cash minus the buy commission divided by the
buy price. -/
theorem c9_switch_two_trades (strat : StratType)
    (all_data : List (String × List FRow)) (mkt : Option (List (ℕ × ℚ)))
    (yd today : ℕ) (td : List (String × FRow)) (st : BTState)
    (S : List (String × ℚ)) (c : CashReason) (a b : String) (ts : ℚ)
    (ra rb : FRow)
    (hhold : st.holding = some a) (ha : a ≠ "CASH")
    (hS : computeScores strat (yesterdayData all_data yd) (marketYest mkt yd) = S)
    (hne : S ≠ [])
    (hshc : should_hold_cash strat S (marketYest mkt yd) = (false, c))
    (hb : argmaxKey S = some b) (hts : S.lookup b = some ts)
    (hba : b ≠ a) (hbc : b ≠ "CASH")
    (hra : td.lookup a = some ra) (hrb : td.lookup b = some rb) :
    decisionPhase strat all_data mkt (some yd) today td st =
      { holding := some b,
        shares := (st.shares * ra.openPrice -
            max (st.shares * ra.openPrice * commissionRate) minCommission -
            max ((st.shares * ra.openPrice -
              max (st.shares * ra.openPrice * commissionRate) minCommission) *
              commissionRate) minCommission) / rb.openPrice,
        cash := 0,
        trade_log := st.trade_log ++
          [.sell today a (round3 ra.openPrice) (round2 st.shares)
             (round2 (st.shares * ra.openPrice)),
           .buy today b (round3 rb.openPrice)
             (round2 ((st.shares * ra.openPrice -
               max (st.shares * ra.openPrice * commissionRate) minCommission -
               max ((st.shares * ra.openPrice -
                 max (st.shares * ra.openPrice * commissionRate) minCommission) *
                 commissionRate) minCommission) / rb.openPrice)) (round2 ts)],
        nav_history := st.nav_history,
        decision_history := st.decision_history ++
          [{ date := today, prev_holding := a,
             scores := S.map fun p => (p.1, round2 p.2),
             decision := b, reason := .topScore ts, action := "SWITCH" }] } := by
  have hy := computeScores_ne_empty hS hne
  simp [decisionPhase, hy, hS, hshc, hhold, ha, hb, hts, hba, hbc, hra, hrb,
    Ne.symm hba, sub_sub]

def rw0A : FRow := { date := 0, openPrice := 10, closePrice := 10, return_5 := some (1/10) }

def rw0B : FRow := { date := 0, openPrice := 10, closePrice := 10 }

def rw1A : FRow := { date := 1, openPrice := 12, closePrice := 12 }

def rw1B : FRow := { date := 1, openPrice := 11, closePrice := 11 }

def swData : List (String × List FRow) := [("B", [rw0B, rw1B]), ("A", [rw0A, rw1A])]

def swScores : List (String × ℚ) := [("B", 50), ("A", 105/2)]

def swSt : BTState :=
  { holding := some "B", shares := 100, cash := 0, trade_log := [],
    nav_history := [], decision_history := [] }

set_option maxRecDepth 100000 in
/-- C9 witness: invested in B with A scoring higher, the day appends the
SELL of B at open 11 and the BUY of A at open 12, both commission-adjusted. -/
theorem c9_switch_witness :
    argmaxKey swScores = some "A" ∧
    decisionPhase .momentum swData none (some 0) 1 (todayData swData 1) swSt =
      { holding := some "A",
        shares := (swSt.shares * rw1B.openPrice -
            max (swSt.shares * rw1B.openPrice * commissionRate) minCommission -
            max ((swSt.shares * rw1B.openPrice -
              max (swSt.shares * rw1B.openPrice * commissionRate) minCommission) *
              commissionRate) minCommission) / rw1A.openPrice,
        cash := 0,
        trade_log := swSt.trade_log ++
          [.sell 1 "B" (round3 rw1B.openPrice) (round2 swSt.shares)
             (round2 (swSt.shares * rw1B.openPrice)),
           .buy 1 "A" (round3 rw1A.openPrice)
             (round2 ((swSt.shares * rw1B.openPrice -
               max (swSt.shares * rw1B.openPrice * commissionRate) minCommission -
               max ((swSt.shares * rw1B.openPrice -
                 max (swSt.shares * rw1B.openPrice * commissionRate) minCommission) *
                 commissionRate) minCommission) / rw1A.openPrice)) (round2 (105/2))],
        nav_history := swSt.nav_history,
        decision_history := swSt.decision_history ++
          [{ date := 1, prev_holding := "B",
             scores := swScores.map fun p => (p.1, round2 p.2),
             decision := "A", reason := .topScore (105/2), action := "SWITCH" }] } :=
  ⟨by with_unfolding_all decide,
   c9_switch_two_trades .momentum swData none 0 1 (todayData swData 1) swSt
     swScores .favorable "B" "A" (105/2) rw1B rw1A rfl
     (by with_unfolding_all decide) (by with_unfolding_all decide)
     (by with_unfolding_all decide) (by with_unfolding_all decide)
     (by with_unfolding_all decide) (by with_unfolding_all decide)
     (by with_unfolding_all decide) (by with_unfolding_all decide)
     (by with_unfolding_all decide) (by with_unfolding_all decide)⟩

/-!
## C6 — unimplemented (growth) strategy entry points
-/

/-- C6 amended: only the recommendation entry point gates the growth
strategy: `get_recommendation` answers the distinct unimplemented shape
before touching any data, for every input; the `/api/backtest` route has
no such gate — it can never produce the unimplemented shape and instead
runs a normal backtest scoring with the growth strategy's own weight
table (see the counterexample). -/
theorem c6_growth_gate_only_recommendation :
    (∀ (data : List (String × List FRow)) (mkt : Option (List ℚ)),
      get_recommendation .growth data mkt =
        .unimplementedShape "🚀 信仰成长策略 - 开发中") ∧
    (∀ (all_data : List (String × List FRow)) (mkt : Option (List (ℕ × ℚ)))
       (start : ℕ) (period : String),
      (backtest_api .growth all_data mkt start period).isUnimpl = false) := by
  constructor
  · intro data mkt
    rfl
  · intro a m s p
    unfold backtest_api
    cases h : run_backtest_core .growth a m s 100000 with
    | none => rfl
    | some st =>
        cases h2 : calculate_metrics 100000 st with
        | none => simp [h2, BacktestResponse.isUnimpl]
        | some mm => simp [h2, BacktestResponse.isUnimpl]

def scoresGlit : List (String × ℚ) :=
  [("S1", 41), ("S2", 41), ("S3", 41), ("S4", 41), ("S5", 41)]

def decG1 : Decision :=
  { date := 1, prev_holding := "CASH", scores := scoresGlit,
    decision := "S1", reason := .topScore 41, action := "BUY" }

def stG1 : BTState :=
  { holding := some "S1", shares := 9999, cash := 0,
    trade_log := [.buy 1 "S1" 10 9999 41],
    nav_history := [{ date := 0, nav := 100000, holding := "CASH", return_pct := 0 },
                    { date := 1, nav := 99990, holding := "S1", return_pct := -(1/100) }],
    decision_history := [dec0lit, decG1] }

set_option maxRecDepth 100000 in
theorem btRunGrowth_eq :
    run_backtest_core .growth btData1 none 0 100000 = some stG1 := by
  have hdates : tradeDates btData1 0 = [0, 1] := by with_unfolding_all decide
  have htd0 : todayData btData1 0 =
      [("S1", btRow0), ("S2", btRow0), ("S3", btRow0), ("S4", btRow0), ("S5", btRow0)] := by
    with_unfolding_all decide
  have htd1 : todayData btData1 1 =
      [("S1", btRow1), ("S2", btRow1), ("S3", btRow1), ("S4", btRow1), ("S5", btRow1)] := by
    with_unfolding_all decide
  have hS : computeScores .growth (yesterdayData btData1 0) (marketYest none 0) =
      scoresGlit := by
    with_unfolding_all decide
  have hshc : should_hold_cash .growth scoresGlit (marketYest none 0) =
      (false, .favorable) := by
    with_unfolding_all decide
  have e1 : round2 ((100000 : ℚ)) = 100000 := by
    have := round2_int 100000
    push_cast at this
    exact this
  have e2 : round2 ((((100000 : ℚ)) / 100000 - 1) * 100) = 0 := by
    rw [show ((((100000 : ℚ)) / 100000 - 1) * 100) = ((0 : ℤ) : ℚ) by norm_num]
    simpa using round2_int 0
  have e41 : round2 ((41 : ℚ)) = 41 := by
    have := round2_int 41
    push_cast at this
    exact this
  have hd0 : dayStep .growth btData1 none 100000 none 0 stInit = st0lit := by
    simp only [dayStep, htd0]
    rw [if_neg (by with_unfolding_all decide)]
    rw [decisionPhase_no_yesterday, navPhase_none _ _ _ _ rfl]
    simp only [stInit, st0lit, dec0lit, Option.getD_none, List.nil_append]
    rw [e1, e2]
  have hd1 : dayStep .growth btData1 none 100000 (some 0) 1 st0lit = stG1 := by
    simp only [dayStep, htd1]
    rw [if_neg (by with_unfolding_all decide)]
    rw [decisionPhase_buy_from_none .growth btData1 none 0 1 _ st0lit scoresGlit
      .favorable "S1" 41 btRow1 rfl hS (by with_unfolding_all decide) hshc
      (by with_unfolding_all decide) (by with_unfolding_all decide)
      (by with_unfolding_all decide) (by with_unfolding_all decide)]
    rw [navPhase_invested 100000 1 _ _ "S1" btRow1 rfl
      (by with_unfolding_all decide) (by with_unfolding_all decide)]
    simp only [st0lit, stG1, stInit, dec0lit, decG1, scoresGlit, btRow1,
      List.map_cons, List.map_nil, List.append_nil, List.nil_append,
      List.cons_append, List.singleton_append]
    have eShares : ((100000 : ℚ) - max (100000 * commissionRate) minCommission) / 10 =
        9999 := by
      rw [show max ((100000 : ℚ) * commissionRate) minCommission = 10 by
        rw [max_eq_left (by norm_num [commissionRate, minCommission])]
        norm_num [commissionRate]]
      norm_num
    have e9999 : round2 ((9999 : ℚ)) = 9999 := by
      have := round2_int 9999
      push_cast at this
      exact this
    have e10 : round3 ((10 : ℚ)) = 10 := by
      have := round3_int 10
      push_cast at this
      exact this
    have eNav : round2 ((9999 : ℚ) * 10) = 99990 := by
      rw [show ((9999 : ℚ) * 10) = ((99990 : ℤ) : ℚ) by norm_num]
      simpa using round2_int 99990
    have eRet : round2 ((9999 * 10 / 100000 - 1) * 100 : ℚ) = -(1/100) := by
      rw [round2_eq_of _ (-1) (by norm_num) (by norm_num)]
      norm_num
    rw [e41, eShares, e9999, e10, eNav, eRet]
  simp only [run_backtest_core]
  rw [if_neg (by with_unfolding_all decide), hdates]
  show some (runDays .growth btData1 none 100000 none [0, 1] stInit) = some stG1
  simp only [runDays]
  rw [hd0, hd1]

/-- C6 counterexample: for the growth strategy the `/api/backtest` route
does not answer the unimplemented shape — it runs a full backtest with
the growth weight table and answers a normal success payload. -/
theorem c6_backtest_growth_runs_cex :
    (backtest_api .growth btData1 none 0 "all").isUnimpl = false ∧
    (backtest_api .growth btData1 none 0 "all").isSuccess = true := by
  have hmet : (calculate_metrics 100000 stG1).isSome = true := by
    simp only [calculate_metrics]
    rw [if_neg (by with_unfolding_all decide)]
    rfl
  obtain ⟨mm, hmm⟩ := Option.isSome_iff_exists.mp hmet
  simp only [backtest_api, btRunGrowth_eq, hmm]
  exact ⟨rfl, rfl⟩

end PickETF
